import Mathlib

/-!
Verification development for the congestion-unaware analytical network
backend.  The configuration/driver logic is embedded from
`src/src/main.cc`.  Components of the repository that are referenced by
`main.cc` but whose sources are not under `src/` (the event queue, the
fast topologies' closed-form delay, `FullyConnected`'s hop count) are
modelled from the specification; each such definition says so in its
doc comment.
-/

namespace AstraAnalytical

/-- Per-dimension topology configuration, with the eight fields in the
order they are passed to `topology_configs.emplace_back` in
`src/src/main.cc` lines 210-221. -/
structure TopologyConfig where
  npus_count : Int
  link_latency : ℚ
  link_bandwidth : ℚ
  nic_latency : ℚ
  router_latency : ℚ
  hbm_latency : ℚ
  hbm_bandwidth : ℚ
  hbm_scale : ℚ
deriving DecidableEq

/-- The network-configuration values read out of the JSON document by
`main` (`main.cc` lines 132-177): topology name, fast-version flag,
dimensions count, and the eight per-dimension arrays. -/
structure NetworkConfig where
  topology_name : String
  use_fast_version : Bool
  dimensions_count : Int
  units_counts : List Int
  link_latencies : List ℚ
  link_bandwidths : List ℚ
  nic_latencies : List ℚ
  router_latencies : List ℚ
  hbm_latencies : List ℚ
  hbm_bandwidths : List ℚ
  hbm_scales : List ℚ

/-- One iteration of the `topology_configs` loop (`main.cc` 210-221):
index every per-dimension vector at `i`.  `none` models an out-of-range
`std::vector::operator[]` access, which in C++ is undefined behavior. -/
def getCfgAt (cfg : NetworkConfig) (i : Nat) : Option TopologyConfig := do
  let u ← cfg.units_counts.get? i
  let ll ← cfg.link_latencies.get? i
  let lb ← cfg.link_bandwidths.get? i
  let nl ← cfg.nic_latencies.get? i
  let rl ← cfg.router_latencies.get? i
  let hl ← cfg.hbm_latencies.get? i
  let hb ← cfg.hbm_bandwidths.get? i
  let hs ← cfg.hbm_scales.get? i
  pure ⟨u, ll, lb, nl, rl, hl, hb, hs⟩

/-- The `topology_configs` loop run up to iteration `n` (exclusive). -/
def buildConfigsFrom (cfg : NetworkConfig) : Nat → Option (List TopologyConfig)
  | 0 => some []
  | n + 1 =>
    match buildConfigsFrom cfg n, getCfgAt cfg n with
    | some acc, some tc => some (acc ++ [tc])
    | _, _ => none

/-- The whole `topology_configs` construction loop of `main.cc` 210-221:
`for (int i = 0; i < dimensions_count; i++) emplace_back(...)`. -/
def buildTopologyConfigs (cfg : NetworkConfig) : Option (List TopologyConfig) :=
  buildConfigsFrom cfg cfg.dimensions_count.toNat

/-- The per-dimension arrays each have at least `dimensions_count`
entries, so the `topology_configs` loop never indexes out of range. -/
def arraysCover (cfg : NetworkConfig) : Prop :=
  cfg.dimensions_count.toNat ≤ cfg.units_counts.length ∧
  cfg.dimensions_count.toNat ≤ cfg.link_latencies.length ∧
  cfg.dimensions_count.toNat ≤ cfg.link_bandwidths.length ∧
  cfg.dimensions_count.toNat ≤ cfg.nic_latencies.length ∧
  cfg.dimensions_count.toNat ≤ cfg.router_latencies.length ∧
  cfg.dimensions_count.toNat ≤ cfg.hbm_latencies.length ∧
  cfg.dimensions_count.toNat ≤ cfg.hbm_bandwidths.length ∧
  cfg.dimensions_count.toNat ≤ cfg.hbm_scales.length

instance (cfg : NetworkConfig) : Decidable (arraysCover cfg) := by
  unfold arraysCover
  infer_instance

/-- The three topology variants `main.cc` can actually construct
(`FastSwitch` line 228, `FastTorus2D` line 256, `FastRing` line 272). -/
inductive TopologyKind where
  | FastSwitch
  | FastTorus2D
  | FastRing
deriving DecidableEq

/-- `nodes_count_for_system` right after
`auto nodes_count_for_system = std::array<int, 5>();` (`main.cc` 193).
In C++ the `()` initializer value-initializes the aggregate, which
zero-initializes all five `int` elements. -/
def nodesValueInit : Fin 5 → Int := fun _ => 0

/-- `nodes_count_for_system` after the loop
`for (int i = 0; i < 4; i++) nodes_count_for_system[i] = 1;`
(`main.cc` 194-196): the first four elements are 1, the fifth keeps its
value-initialized 0. -/
def nodesAfterInitLoop : Fin 5 → Int := fun i =>
  if i.val < 4 then 1 else nodesValueInit i

/-- A single `nodes_count_for_system[j] = v` assignment. -/
def setNode (f : Fin 5 → Int) (j : Fin 5) (v : Int) : Fin 5 → Int :=
  fun i => if i = j then v else f i

/-- The state `main` reaches when it gets past topology instantiation
and enters the construction loop of line 288: the computed `npus_count`,
the number of network adapters / memories / `Sys` instances the loop
creates, the `nodes_count_for_system` array, and which topology object
(if any) was stored in the `topology` shared pointer. -/
structure SimSetup where
  npus_count : Int
  systems_count : Nat
  nodes_count_for_system : Fin 5 → Int
  topology : Option TopologyKind

/-- How a run of `main`'s setup phase ends. -/
inductive MainOutcome where
  /-- `std::cout << msg; exit(code)` before the construction loop. -/
  | configError (msg : String) (code : Int)
  /-- a failed `assert(cond && msg)`. -/
  | assertFailure (msg : String)
  /-- an out-of-range `std::vector::operator[]` access. -/
  | undefinedBehavior (what : String)
  /-- setup completed; `main` constructs adapters, memories and `Sys`. -/
  | proceeds (s : SimSetup)

/-- Embedding of `main`'s setup phase (`main.cc` 186-324): `npus_count`
as the product of every element of `units_counts` (187-190), the
`nodes_count_for_system` initialization (193-196), the
`topology_configs` loop (210-221), and the topology dispatch on
`topology_name` (224-285) with its asserts, `exit(-1)` calls and
per-branch `nodes_count_for_system` writes.  The `AllToAll` branch body
is commented out in the source (241-251), so that branch falls through
to construction with the `topology` pointer left unset. -/
def runMainSetup (cfg : NetworkConfig) : MainOutcome :=
  let npus_count : Int := cfg.units_counts.foldl (· * ·) 1
  let nodes := nodesAfterInitLoop
  match buildTopologyConfigs cfg with
  | none => .undefinedBehavior "out-of-range vector index in topology config loop"
  | some _tcs =>
    if cfg.topology_name = "Switch" then
      if cfg.dimensions_count = 1 then
        if cfg.use_fast_version then
          .proceeds ⟨npus_count, npus_count.toNat, setNode nodes 2 npus_count,
            some .FastSwitch⟩
        else .configError "Detailed version not implemented yet" (-1)
      else .assertFailure "[main] Switch is the given topology but dimension != 1"
    else if cfg.topology_name = "AllToAll" then
      if cfg.dimensions_count = 1 then
        .proceeds ⟨npus_count, npus_count.toNat, nodes, none⟩
      else .assertFailure "[main] AllToAll is the given topology but dimension != 1"
    else if cfg.topology_name = "Torus2D" then
      if cfg.dimensions_count = 2 then
        if cfg.use_fast_version then
          match cfg.units_counts.get? 1, cfg.units_counts.get? 0 with
          | some u1, some u0 =>
            .proceeds ⟨npus_count, npus_count.toNat,
              setNode (setNode nodes 1 u1) 2 u0, some .FastTorus2D⟩
          | _, _ => .undefinedBehavior "out-of-range vector index in Torus2D node counts"
        else .configError "Detailed version not implemented yet" (-1)
      else .assertFailure "[main] Torus2D is the given topology but dimension != 2"
    else if cfg.topology_name = "Ring" then
      if cfg.dimensions_count = 1 then
        if cfg.use_fast_version then
          .proceeds ⟨npus_count, npus_count.toNat, setNode nodes 2 npus_count,
            some .FastRing⟩
        else .configError "Detailed version not implemented yet" (-1)
      else .assertFailure "[main] Ring is the given topology but dimension != 1"
    else .configError ("[Main] Topology not defined: " ++ cfg.topology_name) (-1)

/-- Did the run end in a `std::cout`-plus-`exit` configuration error? -/
def MainOutcome.isConfigError : MainOutcome → Bool
  | .configError _ _ => true
  | _ => false

/-- Did the run halt (error message or assert) before the construction
loop of `main.cc` line 288? -/
def MainOutcome.haltsBeforeConstruction : MainOutcome → Bool
  | .configError _ _ => true
  | .assertFailure _ => true
  | _ => false

/-- Did the run reach the construction loop with the `topology` shared
pointer never assigned? -/
def MainOutcome.constructsWithUnsetTopology : MainOutcome → Bool
  | .proceeds s => s.topology.isNone
  | _ => false

/-- The fifth `nodes_count_for_system` value handed to every
`AstraSim::Sys` constructor (`main.cc` 306), when construction is
reached. -/
def MainOutcome.fifthDimensionForSys : MainOutcome → Option Int
  | .proceeds s => some (s.nodes_count_for_system 4)
  | _ => none

/-- Did the run end in a configuration error whose `exit` status is
non-zero? -/
def MainOutcome.nonzeroExitConfigError : MainOutcome → Bool
  | .configError _ c => decide (c ≠ 0)
  | _ => false

/-- The dimensions count each recognized topology name asserts
(`main.cc` 225, 239, 253, 269). -/
def expectedDims (name : String) : Int :=
  if name = "Torus2D" then 2 else 1

/-- The message string of the dimension assert for each recognized
topology name. -/
def dimensionAssertMsg (name : String) : String :=
  if name = "Switch" then "[main] Switch is the given topology but dimension != 1"
  else if name = "AllToAll" then "[main] AllToAll is the given topology but dimension != 1"
  else if name = "Torus2D" then "[main] Torus2D is the given topology but dimension != 2"
  else "[main] Ring is the given topology but dimension != 1"

/-- Topology names for which `main.cc` has an implemented variant. -/
def supportedImplementedName (name : String) : Prop :=
  name = "Switch" ∨ name = "Torus2D" ∨ name = "Ring"

/-- Topology names recognized by the dispatch chain of `main.cc` 224-281. -/
def recognizedName (name : String) : Prop :=
  name = "Switch" ∨ name = "AllToAll" ∨ name = "Torus2D" ∨ name = "Ring"

/-- An `AllToAll` request that passes its dimension assert. -/
def allToAllCfg : NetworkConfig :=
  { topology_name := "AllToAll", use_fast_version := true, dimensions_count := 1,
    units_counts := [4], link_latencies := [10], link_bandwidths := [1],
    nic_latencies := [2], router_latencies := [5], hbm_latencies := [1],
    hbm_bandwidths := [1], hbm_scales := [1] }

/-- A `Torus2D` request whose `link-latency` array is shorter than
`dimensions-count`. -/
def mismatchedCfg : NetworkConfig :=
  { topology_name := "Torus2D", use_fast_version := true, dimensions_count := 2,
    units_counts := [2, 2], link_latencies := [10], link_bandwidths := [1, 1],
    nic_latencies := [2, 2], router_latencies := [5, 5], hbm_latencies := [1, 1],
    hbm_bandwidths := [1, 1], hbm_scales := [1, 1] }

/-- A well-formed fast `Ring` request over 4 devices. -/
def ringMainCfg : NetworkConfig :=
  { topology_name := "Ring", use_fast_version := true, dimensions_count := 1,
    units_counts := [4], link_latencies := [10], link_bandwidths := [1],
    nic_latencies := [2], router_latencies := [5], hbm_latencies := [1],
    hbm_bandwidths := [1], hbm_scales := [1] }

/-- The setup state `runMainSetup ringMainCfg` reaches. -/
def ringSetup : SimSetup :=
  ⟨4, 4, setNode nodesAfterInitLoop 2 4, some .FastRing⟩

/-- A `Switch` request with `use-fast-version = false`. -/
def switchSlowCfg : NetworkConfig :=
  { topology_name := "Switch", use_fast_version := false, dimensions_count := 1,
    units_counts := [4], link_latencies := [10], link_bandwidths := [1],
    nic_latencies := [2], router_latencies := [5], hbm_latencies := [1],
    hbm_bandwidths := [1], hbm_scales := [1] }

/-- A request whose topology name no dispatch branch recognizes. -/
def meshCfg : NetworkConfig :=
  { topology_name := "Mesh3D", use_fast_version := true, dimensions_count := 1,
    units_counts := [4], link_latencies := [10], link_bandwidths := [1],
    nic_latencies := [2], router_latencies := [5], hbm_latencies := [1],
    hbm_bandwidths := [1], hbm_scales := [1] }

/-- A `Switch` request whose dimensions count is 2 instead of 1. -/
def switchWrongDimsCfg : NetworkConfig :=
  { topology_name := "Switch", use_fast_version := true, dimensions_count := 2,
    units_counts := [2, 2], link_latencies := [10, 10], link_bandwidths := [1, 1],
    nic_latencies := [2, 2], router_latencies := [5, 5], hbm_latencies := [1, 1],
    hbm_bandwidths := [1, 1], hbm_scales := [1, 1] }

/-- Modelled from the spec: an event-queue entry
`{time, sequence_number, callback}`; `event-queue/EventQueueEntry` is
referenced by `main.cc` but its source is not under `src/`. -/
structure EventQueueEntry (α : Type) where
  time : ℚ
  seq : Nat
  callback : α
deriving DecidableEq

/-- Modelled from the spec: the event-queue state — the simulation
clock (initialized to zero), the next sequence number (assigned at
insertion, monotonically increasing), and the pending entries in
insertion order; `event-queue/EventQueue` is referenced by `main.cc`
but its source is not under `src/`. -/
structure EventQueue (α : Type) where
  clock : ℚ
  next_seq : Nat
  entries : List (EventQueueEntry α)
deriving DecidableEq

/-- A fresh event queue: clock zero, no entries. -/
def EventQueue.init (α : Type) : EventQueue α := ⟨0, 0, []⟩

/-- Strict lexicographic order on `(time, sequence_number)`. -/
def keyLt {α : Type} (a b : EventQueueEntry α) : Prop :=
  a.time < b.time ∨ (a.time = b.time ∧ a.seq < b.seq)

instance {α : Type} (a b : EventQueueEntry α) : Decidable (keyLt a b) := by
  unfold keyLt
  infer_instance

/-- Weak lexicographic order on `(time, sequence_number)`. -/
def keyLe {α : Type} (a b : EventQueueEntry α) : Prop :=
  a.time < b.time ∨ (a.time = b.time ∧ a.seq ≤ b.seq)

/-- Select the `(time, sequence_number)`-minimal entry of a list and
return it with the remaining entries (in their original order). -/
def selectMin {α : Type} :
    List (EventQueueEntry α) → Option (EventQueueEntry α × List (EventQueueEntry α))
  | [] => none
  | e :: rest =>
    match selectMin rest with
    | none => some (e, [])
    | some (m, rest_out) =>
      if keyLt m e then some (m, e :: rest_out) else some (e, rest)

/-- Modelled from the spec: `schedule(delay, callback)` computes
`absolute_time = clock + delay`, appends an entry carrying a fresh
increasing sequence number, and does not invoke the callback. -/
def EventQueue.schedule {α : Type} (q : EventQueue α) (delay : ℚ) (cb : α) :
    EventQueue α :=
  ⟨q.clock, q.next_seq + 1, q.entries ++ [⟨q.clock + delay, q.next_seq, cb⟩]⟩

/-- Modelled from the spec: `proceed()` removes the entry with the
smallest `(time, sequence_number)` pair, advances the clock to that
entry's time, and dispatches its callback (returned here); on an empty
queue it is a no-op. -/
def EventQueue.proceed {α : Type} (q : EventQueue α) :
    Option (EventQueueEntry α) × EventQueue α :=
  match selectMin q.entries with
  | none => (none, q)
  | some (m, rest) => (some m, ⟨m.time, q.next_seq, rest⟩)

/-- Run at most `n` `proceed()` steps, recording each dispatched
callback with the clock value at its dispatch. -/
def drain {α : Type} : Nat → EventQueue α → List (α × ℚ)
  | 0, _ => []
  | n + 1, q =>
    match q.proceed with
    | (none, _) => []
    | (some m, q1) => (m.callback, q1.clock) :: drain n q1

/-- The spec's ordering scenario: schedule `A` at absolute time 5, then
`B` at absolute time 5, then `C` at absolute time 3, all from clock 0. -/
def scenarioQueue : EventQueue String :=
  (((EventQueue.init String).schedule 5 "A").schedule 5 "B").schedule 3 "C"

/-- The entry dispatched first from `scenarioQueue`. -/
def entryC : EventQueueEntry String := ⟨3, 2, "C"⟩

/-- `scenarioQueue` after its first `proceed()`. -/
def queueAfterC : EventQueue String := ⟨3, 3, [⟨5, 0, "A"⟩, ⟨5, 1, "B"⟩]⟩

/-- Modelled from the spec: Ring hop count
`min(|src-dst|, n - |src-dst|)`; the `Ring`/`FastRing` sources are not
under `src/`. -/
def ring_hops_count (npus_count : Nat) (src dest : Nat) : Nat :=
  min ((src : Int) - (dest : Int)).natAbs
    (npus_count - ((src : Int) - (dest : Int)).natAbs)

/-- Modelled from the spec: the fixed-latency term
`2 * nic_latency + hops * (link_latency + router_latency)`; the fast
topologies' sources are not under `src/`. -/
def fixed_latency (cfg : TopologyConfig) (hops : Nat) : ℚ :=
  2 * cfg.nic_latency + (hops : ℚ) * (cfg.link_latency + cfg.router_latency)

/-- Modelled from the spec: serialization delay
`message_size / link_bandwidth`. -/
def serialization_delay (cfg : TopologyConfig) (message_size : ℚ) : ℚ :=
  message_size / cfg.link_bandwidth

/-- Modelled from the spec: `total_delay = fixed_latency + serialization`. -/
def total_delay (cfg : TopologyConfig) (hops : Nat) (message_size : ℚ) : ℚ :=
  fixed_latency cfg hops + serialization_delay cfg message_size

/-- Modelled from the spec: the delay of a send across a
single-dimension Ring. -/
def ring_send_delay (cfg : TopologyConfig) (src dest : Nat) (message_size : ℚ) : ℚ :=
  total_delay cfg (ring_hops_count cfg.npus_count.toNat src dest) message_size

/-- Modelled from the spec: the network adapter's send — compute the
closed-form delay and schedule the completion callback on the shared
event queue; the `AnalyticalNetwork` adapter source is not under
`src/`. -/
def adapter_send {α : Type} (q : EventQueue α) (cfg : TopologyConfig)
    (src dest : Nat) (message_size : ℚ) (cb : α) : EventQueue α :=
  q.schedule (ring_send_delay cfg src dest message_size) cb

/-- The worked scenario's dimension config: 4 devices,
`link_latency = 10`, `link_bandwidth = 1`, `nic_latency = 2`,
`router_latency = 5`. -/
def ringTopologyCfg : TopologyConfig := ⟨4, 10, 1, 2, 5, 1, 1, 1⟩

/-- The `FullyConnected` topology's constructor data
(`src/congestion_unaware/basic-topology/FullyConnected.hh` line 18). -/
structure FullyConnected where
  npus_count : Int
  bandwidth : ℚ
  latency : ℚ

/-- Modelled from the spec: `FullyConnected::compute_hops_count` is 0
when `src = dest` and 1 otherwise; only the declaration
(`FullyConnected.hh` lines 20-21) is under `src/`, not the definition. -/
def FullyConnected.compute_hops_count (t : FullyConnected) (src dest : Int) : Int :=
  if src = dest then 0 else 1

/-- A two-device fully connected topology. -/
def fcExample : FullyConnected := ⟨2, 1, 1⟩

/-- An in-range list index yields `some`. -/
theorem get?_isSome_of_lt {β : Type} (l : List β) (i : Nat) (h : i < l.length) :
    ∃ a, l.get? i = some a := by
  cases hg : l.get? i with
  | none => exact absurd (List.get?_eq_none.mp hg) (by omega)
  | some a => exact ⟨a, rfl⟩

/-- When every per-dimension array is long enough at index `i`, the
config-loop body succeeds at `i`. -/
theorem getCfgAt_isSome (cfg : NetworkConfig) (i : Nat)
    (h1 : i < cfg.units_counts.length)
    (h2 : i < cfg.link_latencies.length)
    (h3 : i < cfg.link_bandwidths.length)
    (h4 : i < cfg.nic_latencies.length)
    (h5 : i < cfg.router_latencies.length)
    (h6 : i < cfg.hbm_latencies.length)
    (h7 : i < cfg.hbm_bandwidths.length)
    (h8 : i < cfg.hbm_scales.length) :
    ∃ tc, getCfgAt cfg i = some tc := by
  obtain ⟨u, hu⟩ := get?_isSome_of_lt _ _ h1
  obtain ⟨ll, hll⟩ := get?_isSome_of_lt _ _ h2
  obtain ⟨lb, hlb⟩ := get?_isSome_of_lt _ _ h3
  obtain ⟨nl, hnl⟩ := get?_isSome_of_lt _ _ h4
  obtain ⟨rl, hrl⟩ := get?_isSome_of_lt _ _ h5
  obtain ⟨hl, hhl⟩ := get?_isSome_of_lt _ _ h6
  obtain ⟨hb, hhb⟩ := get?_isSome_of_lt _ _ h7
  obtain ⟨hs, hhs⟩ := get?_isSome_of_lt _ _ h8
  rw [List.get?_eq_getElem?] at hu hll hlb hnl hrl hhl hhb hhs
  exact ⟨⟨u, ll, lb, nl, rl, hl, hb, hs⟩,
    by simp [getCfgAt, hu, hll, hlb, hnl, hrl, hhl, hhb, hhs]⟩

/-- If every iteration below `n` succeeds, the loop up to `n` succeeds. -/
theorem buildConfigsFrom_some (cfg : NetworkConfig) (n : Nat)
    (h : ∀ i, i < n → ∃ tc, getCfgAt cfg i = some tc) :
    ∃ tcs, buildConfigsFrom cfg n = some tcs := by
  induction n with
  | zero => exact ⟨[], rfl⟩
  | succ k ih =>
    obtain ⟨acc, hacc⟩ := ih (fun i hi => h i (Nat.lt_succ_of_lt hi))
    obtain ⟨tc, htc⟩ := h k (Nat.lt_succ_self k)
    exact ⟨acc ++ [tc], by simp [buildConfigsFrom, hacc, htc]⟩

/-- When the per-dimension arrays cover `dimensions_count`, the
`topology_configs` loop runs to completion. -/
theorem buildTopologyConfigs_some (cfg : NetworkConfig) (hcov : arraysCover cfg) :
    ∃ tcs, buildTopologyConfigs cfg = some tcs := by
  obtain ⟨c1, c2, c3, c4, c5, c6, c7, c8⟩ := hcov
  exact buildConfigsFrom_some cfg _ (fun i hi =>
    getCfgAt_isSome cfg i (by omega) (by omega) (by omega) (by omega)
      (by omega) (by omega) (by omega) (by omega))

/-- Every setup run that reaches the construction loop carries the
product of `units_counts` as `npus_count`, sizes the construction loop
by it, and leaves the fifth `nodes_count_for_system` element at its
value-initialized 0. -/
theorem runMainSetup_proceeds_fields (cfg : NetworkConfig) (s : SimSetup)
    (h : runMainSetup cfg = .proceeds s) :
    s.npus_count = cfg.units_counts.foldl (· * ·) 1 ∧
    s.systems_count = (cfg.units_counts.foldl (· * ·) 1).toNat ∧
    s.nodes_count_for_system 4 = 0 := by
  simp only [runMainSetup] at h
  repeat' split at h
  all_goals
    first
      | (simp only [reduceCtorEq] at h)
      | (rw [MainOutcome.proceeds.injEq] at h
         subst h
         refine ⟨rfl, rfl, ?_⟩
         simp only [setNode, nodesAfterInitLoop, nodesValueInit]
         repeat rw [if_neg (by decide)])

/-- `keyLe` is reflexive. -/
theorem keyLe_refl {α : Type} (a : EventQueueEntry α) : keyLe a a :=
  Or.inr ⟨rfl, le_refl _⟩

/-- Strict key order implies weak key order. -/
theorem keyLe_of_keyLt {α : Type} {a b : EventQueueEntry α} (h : keyLt a b) :
    keyLe a b := by
  rcases h with h | ⟨h1, h2⟩
  · exact Or.inl h
  · exact Or.inr ⟨h1, le_of_lt h2⟩

/-- The key order is total: if `a` is not strictly below `b`, then `b`
is weakly below `a`. -/
theorem keyLe_of_not_keyLt {α : Type} {a b : EventQueueEntry α} (h : ¬ keyLt a b) :
    keyLe b a := by
  unfold keyLt at h
  push_neg at h
  rcases lt_trichotomy b.time a.time with ht | ht | ht
  · exact Or.inl ht
  · exact Or.inr ⟨ht, h.2 ht.symm⟩
  · exact absurd ht (not_lt.mpr h.1)

/-- `keyLe` is transitive. -/
theorem keyLe_trans {α : Type} {a b c : EventQueueEntry α}
    (h1 : keyLe a b) (h2 : keyLe b c) : keyLe a c := by
  rcases h1 with h1 | ⟨e1, s1⟩ <;> rcases h2 with h2 | ⟨e2, s2⟩
  · exact Or.inl (lt_trans h1 h2)
  · exact Or.inl (lt_of_lt_of_eq h1 e2)
  · exact Or.inl (lt_of_eq_of_lt e1 h2)
  · exact Or.inr ⟨e1.trans e2, le_trans s1 s2⟩

/-- Weak key order bounds the time component. -/
theorem time_le_of_keyLe {α : Type} {a b : EventQueueEntry α} (h : keyLe a b) :
    a.time ≤ b.time := by
  rcases h with h | ⟨h1, _⟩
  · exact le_of_lt h
  · exact le_of_eq h1

/-- A `selectMin` that returns `none` saw an empty list. -/
theorem selectMin_eq_none {α : Type} {l : List (EventQueueEntry α)}
    (h : selectMin l = none) : l = [] := by
  cases l with
  | nil => rfl
  | cons e tl =>
    rw [selectMin] at h
    cases hs : selectMin tl with
    | none => simp [hs] at h
    | some p =>
      obtain ⟨m, r⟩ := p
      by_cases hk : keyLt m e <;> simp [hs, hk] at h

/-- The entry returned by `selectMin` belongs to the list, is
`(time, seq)`-minimal in it, and the returned remainder is a sublist of
the original entries. -/
theorem selectMin_spec {α : Type} (l : List (EventQueueEntry α))
    (m : EventQueueEntry α) (rest : List (EventQueueEntry α))
    (h : selectMin l = some (m, rest)) :
    m ∈ l ∧ (∀ e ∈ l, keyLe m e) ∧ (∀ e ∈ rest, e ∈ l) := by
  induction l generalizing m rest with
  | nil => cases h
  | cons e tl ih =>
    rw [selectMin] at h
    cases hs : selectMin tl with
    | none =>
      have htl : tl = [] := selectMin_eq_none hs
      subst htl
      simp only [hs, Option.some.injEq, Prod.mk.injEq] at h
      obtain ⟨hm, hrest⟩ := h
      subst hm
      subst hrest
      refine ⟨List.mem_singleton.mpr rfl, ?_, by simp⟩
      intro x hx
      rw [List.mem_singleton] at hx
      subst hx
      exact keyLe_refl _
    | some p =>
      obtain ⟨m0, rest0⟩ := p
      obtain ⟨hmem, hmin, hsub⟩ := ih m0 rest0 hs
      by_cases hk : keyLt m0 e
      · simp only [hs, if_pos hk, Option.some.injEq, Prod.mk.injEq] at h
        obtain ⟨hm, hrest⟩ := h
        subst hm
        subst hrest
        refine ⟨List.mem_cons_of_mem e hmem, ?_, ?_⟩
        · intro x hx
          rcases List.mem_cons.mp hx with hx | hx
          · subst hx; exact keyLe_of_keyLt hk
          · exact hmin x hx
        · intro x hx
          rcases List.mem_cons.mp hx with hx | hx
          · subst hx; exact List.mem_cons_self _ _
          · exact List.mem_cons_of_mem _ (hsub x hx)
      · simp only [hs, if_neg hk, Option.some.injEq, Prod.mk.injEq] at h
        obtain ⟨hm, hrest⟩ := h
        subst hm
        subst hrest
        refine ⟨List.mem_cons_self _ tl, ?_, fun x hx => List.mem_cons_of_mem _ hx⟩
        intro x hx
        rcases List.mem_cons.mp hx with hx | hx
        · subst hx; exact keyLe_refl _
        · exact keyLe_trans (keyLe_of_not_keyLt hk) (hmin x hx)

/-- C1: the claim says an `AllToAll` topology name is rejected at
configuration time with a named configuration error; on the code, an
`AllToAll` configuration that passes its dimension assert produces no
configuration error, does not halt before the construction loop, and
reaches `Sys` construction with the `topology` pointer left unset
(the branch body of `main.cc` 241-251 is commented out). -/
theorem alltoall_reaches_construction_with_unset_topology :
    (runMainSetup allToAllCfg).isConfigError = false ∧
    (runMainSetup allToAllCfg).haltsBeforeConstruction = false ∧
    (runMainSetup allToAllCfg).constructsWithUnsetTopology = true :=
  ⟨by decide, by decide, by decide⟩

/-- C2: `proceed()` dispatches the entry with the smallest
`(time, sequence_number)` pair (ties broken by the insertion-assigned
sequence number), sets the clock to that entry's time, never decreases
the clock, preserves the clock-below-all-entries invariant (also under
`schedule` with non-negative delay), and on the concrete scenario —
`A` at time 5, then `B` at time 5, then `C` at time 3 — dispatches
`C, A, B` with clocks `3, 5, 5`. -/
theorem eventQueue_dispatch_minimal_and_ordered
    (q : EventQueue String)
    (hinv : ∀ e ∈ q.entries, q.clock ≤ e.time)
    (m : EventQueueEntry String) (q1 : EventQueue String)
    (hp : q.proceed = (some m, q1)) :
    m ∈ q.entries ∧
    (∀ e ∈ q.entries, keyLe m e) ∧
    q1.clock = m.time ∧
    q.clock ≤ q1.clock ∧
    (∀ e ∈ q1.entries, q1.clock ≤ e.time) ∧
    (∀ (d : ℚ) (cb : String), 0 ≤ d →
      ∀ e ∈ (q.schedule d cb).entries, (q.schedule d cb).clock ≤ e.time) ∧
    drain 4 scenarioQueue = [("C", 3), ("A", 5), ("B", 5)] := by
  unfold EventQueue.proceed at hp
  cases hs : selectMin q.entries with
  | none => rw [hs] at hp; cases hp
  | some p =>
    obtain ⟨mm, rest⟩ := p
    rw [hs] at hp
    rw [Prod.mk.injEq, Option.some.injEq] at hp
    obtain ⟨hm, hq⟩ := hp
    subst hm
    subst hq
    obtain ⟨hmem, hmin, hsub⟩ := selectMin_spec q.entries _ _ hs
    refine ⟨hmem, hmin, rfl, hinv _ hmem, ?_, ?_, ?_⟩
    · intro e he
      exact time_le_of_keyLe (hmin e (hsub e he))
    · intro d cb hd e he
      unfold EventQueue.schedule at he ⊢
      rcases List.mem_append.mp he with he | he
      · exact hinv e he
      · rw [List.mem_singleton] at he
        subst he
        simpa using hd
    · norm_num [scenarioQueue, EventQueue.proceed, EventQueue.init, EventQueue.schedule,
        selectMin, keyLt, drain]

/-- Witness for C2: the spec's scenario queue satisfies the invariant,
its first `proceed()` dispatches `C`, and the dispatch order and clocks
are as claimed. -/
theorem eventQueue_dispatch_minimal_and_ordered_witness :
    scenarioQueue.clock ≤ entryC.time ∧
    scenarioQueue.proceed = (some entryC, queueAfterC) ∧
    queueAfterC.clock = entryC.time ∧
    scenarioQueue.clock ≤ queueAfterC.clock ∧
    drain 4 scenarioQueue = [("C", 3), ("A", 5), ("B", 5)] := by
  have hinv : ∀ e ∈ scenarioQueue.entries, scenarioQueue.clock ≤ e.time := by
    norm_num [scenarioQueue, EventQueue.init, EventQueue.schedule]
  have hp : scenarioQueue.proceed = (some entryC, queueAfterC) := by
    norm_num [scenarioQueue, EventQueue.proceed, EventQueue.init, EventQueue.schedule,
      selectMin, keyLt, entryC, queueAfterC]
  have h := eventQueue_dispatch_minimal_and_ordered scenarioQueue hinv entryC queueAfterC hp
  exact ⟨by norm_num [scenarioQueue, EventQueue.init, EventQueue.schedule, entryC],
    hp, h.2.2.1, h.2.2.2.1, h.2.2.2.2.2.2⟩

/-- C3: on a 4-device Ring with link latency 10, router latency 5, NIC
latency 2 and bandwidth 1, sending 1000 bytes from device 0 to device 2
at time 0 gives 2 hops, fixed latency 34, serialization 1000, total
delay 1034, and the completion callback is dispatched exactly once, at
simulated time 1034. -/
theorem ring_worked_scenario :
    ring_hops_count 4 0 2 = 2 ∧
    fixed_latency ringTopologyCfg 2 = 34 ∧
    serialization_delay ringTopologyCfg 1000 = 1000 ∧
    ring_send_delay ringTopologyCfg 0 2 1000 = 1034 ∧
    drain 2 (adapter_send (EventQueue.init String) ringTopologyCfg 0 2 1000 "completion")
      = [("completion", 1034)] := by
  have hh : ring_hops_count (Int.toNat 4) 0 2 = 2 := by decide
  refine ⟨by decide, ?_, ?_, ?_, ?_⟩
  · norm_num [fixed_latency, ringTopologyCfg]
  · norm_num [serialization_delay, ringTopologyCfg]
  · norm_num [ring_send_delay, total_delay, fixed_latency, serialization_delay,
      hh, ringTopologyCfg]
  · norm_num [adapter_send, ring_send_delay, total_delay, fixed_latency,
      serialization_delay, hh, ringTopologyCfg, EventQueue.proceed, EventQueue.init,
      EventQueue.schedule, selectMin, keyLt, drain]

/-- C4: a configuration naming an implemented topology (`Switch`,
`Torus2D` or `Ring`) with `use-fast-version = false` and well-formed
arrays/dimensions makes `main` print "Detailed version not implemented
yet" and `exit(-1)` before the construction loop; it never falls back
to the fast version. -/
theorem nonfast_request_halts_with_message (cfg : NetworkConfig)
    (hname : supportedImplementedName cfg.topology_name)
    (hfast : cfg.use_fast_version = false)
    (hcov : arraysCover cfg)
    (hdims : cfg.dimensions_count = expectedDims cfg.topology_name) :
    runMainSetup cfg = .configError "Detailed version not implemented yet" (-1) ∧
    (runMainSetup cfg).haltsBeforeConstruction = true := by
  obtain ⟨tcs, htcs⟩ := buildTopologyConfigs_some cfg hcov
  have hmain : runMainSetup cfg
      = .configError "Detailed version not implemented yet" (-1) := by
    rcases hname with h | h | h <;>
      (simp [expectedDims, h] at hdims; simp [runMainSetup, htcs, h, hdims, hfast])
  exact ⟨hmain, by rw [hmain]; rfl⟩

/-- Witness for C4 at a concrete slow-`Switch` configuration. -/
theorem nonfast_request_halts_with_message_witness :
    supportedImplementedName switchSlowCfg.topology_name ∧
    switchSlowCfg.use_fast_version = false ∧
    arraysCover switchSlowCfg ∧
    switchSlowCfg.dimensions_count = expectedDims switchSlowCfg.topology_name ∧
    (runMainSetup switchSlowCfg
        = .configError "Detailed version not implemented yet" (-1) ∧
      (runMainSetup switchSlowCfg).haltsBeforeConstruction = true) :=
  ⟨Or.inl rfl, rfl, by decide, by decide,
    nonfast_request_halts_with_message switchSlowCfg (Or.inl rfl) rfl
      (by decide) (by decide)⟩

/-- C5: a configuration whose topology name matches no dispatch branch
makes `main` print a diagnostic naming the offending topology and call
`exit(-1)` — a non-zero status — before any `Sys`, adapter or
event-queue activity (no construction is reached). -/
theorem unknown_topology_name_config_error (cfg : NetworkConfig)
    (h1 : cfg.topology_name ≠ "Switch")
    (h2 : cfg.topology_name ≠ "AllToAll")
    (h3 : cfg.topology_name ≠ "Torus2D")
    (h4 : cfg.topology_name ≠ "Ring")
    (hcov : arraysCover cfg) :
    runMainSetup cfg
      = .configError ("[Main] Topology not defined: " ++ cfg.topology_name) (-1) ∧
    (runMainSetup cfg).nonzeroExitConfigError = true ∧
    (runMainSetup cfg).haltsBeforeConstruction = true := by
  obtain ⟨tcs, htcs⟩ := buildTopologyConfigs_some cfg hcov
  have hmain : runMainSetup cfg
      = .configError ("[Main] Topology not defined: " ++ cfg.topology_name) (-1) := by
    simp [runMainSetup, htcs, h1, h2, h3, h4]
  refine ⟨hmain, ?_, ?_⟩
  · rw [hmain]; rfl
  · rw [hmain]; rfl

/-- Witness for C5 at a concrete unrecognized topology name. -/
theorem unknown_topology_name_config_error_witness :
    meshCfg.topology_name ≠ "Switch" ∧
    meshCfg.topology_name ≠ "AllToAll" ∧
    meshCfg.topology_name ≠ "Torus2D" ∧
    meshCfg.topology_name ≠ "Ring" ∧
    arraysCover meshCfg ∧
    (runMainSetup meshCfg
        = .configError ("[Main] Topology not defined: " ++ meshCfg.topology_name) (-1) ∧
      (runMainSetup meshCfg).nonzeroExitConfigError = true ∧
      (runMainSetup meshCfg).haltsBeforeConstruction = true) :=
  ⟨by decide, by decide, by decide, by decide, by decide,
    unknown_topology_name_config_error meshCfg (by decide) (by decide) (by decide)
      (by decide) (by decide)⟩

/-- C6: the claim says a per-dimension array shorter than
`dimensions-count` is detected as a fatal configuration error before
construction; on the code, such a configuration makes the
`topology_configs` loop read past the end of the short array
(undefined behavior), with no configuration error and no halt
diagnostic. -/
theorem mismatched_arrays_out_of_range_read :
    runMainSetup mismatchedCfg
      = .undefinedBehavior "out-of-range vector index in topology config loop" ∧
    (runMainSetup mismatchedCfg).isConfigError = false ∧
    (runMainSetup mismatchedCfg).haltsBeforeConstruction = false :=
  ⟨rfl, by decide, by decide⟩

/-- C7: a recognized topology name whose `dimensions-count` differs
from the expected value (1 for `Switch`, `AllToAll`, `Ring`; 2 for
`Torus2D`) makes the corresponding `assert` fail, halting before the
construction loop with the assert's message naming the violation. -/
theorem dimension_assert_halts (cfg : NetworkConfig)
    (hr : recognizedName cfg.topology_name)
    (hcov : arraysCover cfg)
    (hd : cfg.dimensions_count ≠ expectedDims cfg.topology_name) :
    runMainSetup cfg = .assertFailure (dimensionAssertMsg cfg.topology_name) ∧
    (runMainSetup cfg).haltsBeforeConstruction = true := by
  obtain ⟨tcs, htcs⟩ := buildTopologyConfigs_some cfg hcov
  have hmain : runMainSetup cfg
      = .assertFailure (dimensionAssertMsg cfg.topology_name) := by
    rcases hr with h | h | h | h <;>
      (simp [expectedDims, h] at hd;
       simp [runMainSetup, htcs, h, hd, dimensionAssertMsg])
  exact ⟨hmain, by rw [hmain]; rfl⟩

/-- Witness for C7 at a concrete `Switch` configuration with two
dimensions. -/
theorem dimension_assert_halts_witness :
    recognizedName switchWrongDimsCfg.topology_name ∧
    arraysCover switchWrongDimsCfg ∧
    switchWrongDimsCfg.dimensions_count ≠ expectedDims switchWrongDimsCfg.topology_name ∧
    (runMainSetup switchWrongDimsCfg
        = .assertFailure (dimensionAssertMsg switchWrongDimsCfg.topology_name) ∧
      (runMainSetup switchWrongDimsCfg).haltsBeforeConstruction = true) :=
  ⟨Or.inl rfl, by decide, by decide,
    dimension_assert_halts switchWrongDimsCfg (Or.inl rfl) (by decide) (by decide)⟩

/-- C8: every run that reaches the construction loop sizes it (the
number of adapters, memories and `Sys` instances created) by
`npus_count`, which equals the product of `units-count` over the
`dimensions-count` dimensions whenever the `units-count` array has
exactly `dimensions-count` entries. -/
theorem npus_count_is_product_of_units (cfg : NetworkConfig) (s : SimSetup)
    (hrun : runMainSetup cfg = .proceeds s)
    (hlen : cfg.units_counts.length = cfg.dimensions_count.toNat) :
    s.npus_count
      = (cfg.units_counts.take cfg.dimensions_count.toNat).foldl (· * ·) 1 ∧
    s.systems_count = s.npus_count.toNat := by
  obtain ⟨h1, h2, _⟩ := runMainSetup_proceeds_fields cfg s hrun
  rw [← hlen, List.take_length]
  exact ⟨h1, by rw [h2, h1]⟩

/-- Witness for C8 at the concrete 4-device Ring configuration. -/
theorem npus_count_is_product_of_units_witness :
    runMainSetup ringMainCfg = .proceeds ringSetup ∧
    ringMainCfg.units_counts.length = ringMainCfg.dimensions_count.toNat ∧
    (ringSetup.npus_count
        = (ringMainCfg.units_counts.take ringMainCfg.dimensions_count.toNat).foldl
            (· * ·) 1 ∧
      ringSetup.systems_count = ringSetup.npus_count.toNat) :=
  ⟨rfl, rfl, npus_count_is_product_of_units ringMainCfg ringSetup rfl rfl⟩

/-- C9: for indices in `[0, npus_count)`, `FullyConnected`'s hop count
is 0 on the diagonal, 1 off it, and symmetric. -/
theorem fully_connected_hops_spec (t : FullyConnected) (src dest : Int)
    (hs : 0 ≤ src ∧ src < t.npus_count)
    (hd : 0 ≤ dest ∧ dest < t.npus_count) :
    (src = dest → t.compute_hops_count src dest = 0) ∧
    (src ≠ dest → t.compute_hops_count src dest = 1) ∧
    t.compute_hops_count src dest = t.compute_hops_count dest src := by
  unfold FullyConnected.compute_hops_count
  refine ⟨fun h => by simp [h], fun h => by simp [h], ?_⟩
  by_cases h : src = dest
  · simp [h]
  · rw [if_neg h, if_neg (fun hh : dest = src => h hh.symm)]

/-- Witness for C9 on a two-device fully connected topology. -/
theorem fully_connected_hops_spec_witness :
    (0 ≤ (0 : Int) ∧ (0 : Int) < fcExample.npus_count) ∧
    (0 ≤ (1 : Int) ∧ (1 : Int) < fcExample.npus_count) ∧
    (((0 : Int) = 1 → fcExample.compute_hops_count 0 1 = 0) ∧
      ((0 : Int) ≠ 1 → fcExample.compute_hops_count 0 1 = 1) ∧
      fcExample.compute_hops_count 0 1 = fcExample.compute_hops_count 1 0) :=
  ⟨by decide, by decide,
    fully_connected_hops_spec fcExample 0 1 (by decide) (by decide)⟩

/-- C10 counterexample: the claim says the fifth
`nodes_count_for_system` value handed to `Sys` is an uninitialized,
indeterminate integer; but `std::array<int, 5>()` value-initializes
(zero-initializes) the array, so on a concrete run that reaches
construction the fifth value is the determinate integer 0. -/
theorem fifth_dimension_zero_counterexample :
    nodesValueInit 4 = 0 ∧
    (runMainSetup ringMainCfg).fifthDimensionForSys = some 0 :=
  ⟨rfl, by decide⟩

/-- C10 (amended): the initialization loop writes only the first four
elements, and the fifth element is read and passed to every `Sys`
constructor; but because the array is value-initialized, that fifth
value is always the determinate integer 0, not an indeterminate one. -/
theorem fifth_dimension_for_sys_is_zero (cfg : NetworkConfig) (s : SimSetup)
    (hrun : runMainSetup cfg = .proceeds s) :
    s.nodes_count_for_system 4 = 0 ∧
    (runMainSetup cfg).fifthDimensionForSys = some 0 := by
  obtain ⟨_, _, h3⟩ := runMainSetup_proceeds_fields cfg s hrun
  refine ⟨h3, ?_⟩
  rw [hrun]
  simp [MainOutcome.fifthDimensionForSys, h3]

/-- Witness for C10's amended claim at the concrete Ring run. -/
theorem fifth_dimension_for_sys_is_zero_witness :
    runMainSetup ringMainCfg = .proceeds ringSetup ∧
    (ringSetup.nodes_count_for_system 4 = 0 ∧
      (runMainSetup ringMainCfg).fifthDimensionForSys = some 0) :=
  ⟨rfl, fifth_dimension_for_sys_is_zero ringMainCfg ringSetup rfl⟩

end AstraAnalytical
